import Mathlib

/-!
Verification of the History and Data Analysis Collaboration System
(`all_agents_tutorials/multi_agent_collaboration_system.ipynb`).

The notebook orchestrates two LLM-backed agents through a fixed five-step
pipeline.  We embed the core shallowly:

* the language-model client (`llm.invoke`) is an external completion service,
  modelled as a function `Service` from the call index and the message list to
  `Except String String` — `.error e` models `llm.invoke` raising an exception
  whose `str` is `e`;
* every call made to the service is recorded in a `trace : List (List Message)`
  threaded through the computation, so "how many calls were made and with which
  messages" is directly observable (the call index of a call is the length of
  the trace at the moment it is issued);
* `time.time() - start_time` at the k-th loop-boundary check is modelled by a
  clock function `Nat → ℚ` giving the elapsed duration at that check;
* a Python exception propagating through a step is an `Except.error`; the
  `try/except` in `solve` is the `match` that converts it into the error string.
-/

/-- The role tag of a LangChain message: `SystemMessage`, `HumanMessage` or
`AIMessage`. -/
inductive MsgRole where
  | system
  | human
  | ai
deriving DecidableEq

/-- One message sent to the completion service. -/
structure Message where
  role : MsgRole
  content : String
deriving DecidableEq

/-- One transcript turn: the Python dict `{"role": ..., "content": ...}`.
The notebook only ever stores the role strings `"human"` and `"ai"`. -/
structure Turn where
  role : String
  content : String
deriving DecidableEq

/-- The completion service: given the index of the call (how many calls were
made before it) and the ordered message list, it returns the generated text or
fails with an exception message. -/
abbrev Service := Nat → List Message → Except String String

/-- The base `Agent` class: a name, a role description and a skill list. -/
structure Agent where
  name : String
  role : String
  skills : List String
deriving DecidableEq

/-- The message list built by `Agent.process`: the system instruction, then —
if a context was supplied — every turn whose role is `"human"` or `"ai"`
mapped to the corresponding message kind (other roles are skipped by the
`if/elif` chain), then the task as a final `HumanMessage`. -/
def Agent.buildMessages (a : Agent) (task : String) (context : Option (List Turn)) :
    List Message :=
  Message.mk .system
      ("You are " ++ a.name ++ ", a " ++ a.role ++ ". Your skills include: " ++
        String.intercalate ", " a.skills ++
        ". Respond to the task based on your role and skills.")
    :: ((context.getD []).filterMap fun t =>
        if t.role = "human" then some (Message.mk .human t.content)
        else if t.role = "ai" then some (Message.mk .ai t.content)
        else none)
    ++ [Message.mk .human task]

/-- `Agent.process`: builds the message list, issues exactly one completion
service call (recorded in the trace), and returns the service's text verbatim
(or propagates its failure). -/
def Agent.process (a : Agent) (task : String) (context : Option (List Turn))
    (svc : Service) (trace : List (List Message)) :
    List (List Message) × Except String String :=
  let messages := a.buildMessages task context
  (trace ++ [messages], svc trace.length messages)

/-- What a step hands back to the orchestrator loop: an updated context list,
or (for the terminal step) the final answer string. -/
inductive StepResult where
  | ctx (c : List Turn)
  | answer (s : String)
deriving DecidableEq

/-- Step 1, `research_historical_context`: prompts the history agent with the
task, passing no context, and appends the result as an `"ai"` turn. -/
def research_historical_context (history_agent : Agent) (task : String)
    (context : List Turn) (svc : Service) (trace : List (List Message)) :
    List (List Message) × Except String StepResult :=
  let history_task :=
    "Provide relevant historical context and information for the following task: " ++ task
  match history_agent.process history_task none svc trace with
  | (tr, .ok history_result) =>
      (tr, .ok (.ctx (context ++ [⟨"ai", "History Agent: " ++ history_result⟩])))
  | (tr, .error e) => (tr, .error e)

/-- Step 2, `identify_data_needs`: reads `context[-1]["content"]` (raising an
`IndexError` on an empty context, as Python does), prompts the data agent with
the full context, and appends the result as an `"ai"` turn. -/
def identify_data_needs (data_agent : Agent) (task : String)
    (context : List Turn) (svc : Service) (trace : List (List Message)) :
    List (List Message) × Except String StepResult :=
  match context.getLast? with
  | none => (trace, .error "list index out of range")
  | some lastTurn =>
    let data_need_task :=
      "Based on the historical context, what specific data or statistical information would be helpful to answer the original question? Historical context: "
        ++ lastTurn.content
    match data_agent.process data_need_task (some context) svc trace with
    | (tr, .ok data_need_result) =>
        (tr, .ok (.ctx (context ++ [⟨"ai", "Data Agent: " ++ data_need_result⟩])))
    | (tr, .error e) => (tr, .error e)

/-- Step 3, `provide_historical_data`: reads the last turn, prompts the history
agent with the full context, and appends the result as an `"ai"` turn. -/
def provide_historical_data (history_agent : Agent) (task : String)
    (context : List Turn) (svc : Service) (trace : List (List Message)) :
    List (List Message) × Except String StepResult :=
  match context.getLast? with
  | none => (trace, .error "list index out of range")
  | some lastTurn =>
    let data_provision_task :=
      "Based on the data needs identified, provide relevant historical data or statistics. Data needs: "
        ++ lastTurn.content
    match history_agent.process data_provision_task (some context) svc trace with
    | (tr, .ok data_provision_result) =>
        (tr, .ok (.ctx (context ++ [⟨"ai", "History Agent: " ++ data_provision_result⟩])))
    | (tr, .error e) => (tr, .error e)

/-- Step 4, `analyze_data`: reads the last turn, prompts the data agent with
the full context, and appends the result as an `"ai"` turn. -/
def analyze_data (data_agent : Agent) (task : String)
    (context : List Turn) (svc : Service) (trace : List (List Message)) :
    List (List Message) × Except String StepResult :=
  match context.getLast? with
  | none => (trace, .error "list index out of range")
  | some lastTurn =>
    let analysis_task :=
      "Analyze the historical data provided and describe any trends or insights relevant to the original task. Historical data: "
        ++ lastTurn.content
    match data_agent.process analysis_task (some context) svc trace with
    | (tr, .ok analysis_result) =>
        (tr, .ok (.ctx (context ++ [⟨"ai", "Data Agent: " ++ analysis_result⟩])))
    | (tr, .error e) => (tr, .error e)

/-- Step 5, `synthesize_final_answer`: prompts the history agent with the fixed
synthesis task and the full context, and returns the text directly as the final
answer (no append). -/
def synthesize_final_answer (history_agent : Agent) (task : String)
    (context : List Turn) (svc : Service) (trace : List (List Message)) :
    List (List Message) × Except String StepResult :=
  let synthesis_task :=
    "Based on all the historical context, data, and analysis, provide a comprehensive answer to the original task."
  match history_agent.process synthesis_task (some context) svc trace with
  | (tr, .ok final_result) => (tr, .ok (.answer final_result))
  | (tr, .error e) => (tr, .error e)

/-- The type of a step function as stored in the orchestrator's step list. -/
abbrev StepFun :=
  Agent → String → List Turn → Service → List (List Message) →
    List (List Message) × Except String StepResult

/-- The orchestrator: it owns the two agent instances. -/
structure HistoryDataCollaborationSystem where
  history_agent : Agent
  data_agent : Agent
deriving DecidableEq

/-- The constructor `HistoryDataCollaborationSystem.__init__`. -/
def HistoryDataCollaborationSystem.mkDefault : HistoryDataCollaborationSystem :=
  { history_agent :=
      ⟨"Clio", "History Research Specialist",
        ["deep knowledge of historical events", "understanding of historical contexts",
          "identifying historical trends"]⟩
    data_agent :=
      ⟨"Data", "Data Analysis Expert",
        ["interpreting numerical data", "statistical analysis",
          "data visualization description"]⟩ }

/-- The fixed `steps` list built inside `solve`. -/
def HistoryDataCollaborationSystem.steps (s : HistoryDataCollaborationSystem) :
    List (StepFun × Agent) :=
  [(research_historical_context, s.history_agent),
   (identify_data_needs, s.data_agent),
   (provide_historical_data, s.history_agent),
   (analyze_data, s.data_agent),
   (synthesize_final_answer, s.history_agent)]

/-- The fixed timeout message returned by `solve`. -/
def timeoutMessage : String :=
  "Operation timed out. The process took too long to complete."

/-- The `for step_func, agent in steps` loop of `solve`.  `k` is the index of
the boundary check (`clock k` models `time.time() - start_time` there).  The
result carries the call trace, the context at exit, and `some answer` if a
`return` inside the loop fired (`none` if the loop ran to completion). -/
def runLoop (task : String) (svc : Service) (clock : Nat → ℚ) (timeout : ℚ) :
    List (StepFun × Agent) → Nat → List Turn → List (List Message) →
      List (List Message) × List Turn × Option String
  | [], _, context, trace => (trace, context, none)
  | (step_func, agent) :: rest, k, context, trace =>
      if timeout < clock k then (trace, context, some timeoutMessage)
      else
        match step_func agent task context svc trace with
        | (tr, .error e) => (tr, context, some ("Error during collaboration: " ++ e))
        | (tr, .ok (.answer a)) => (tr, context, some a)
        | (tr, .ok (.ctx c)) => runLoop task svc clock timeout rest (k + 1) c tr

/-- `HistoryDataCollaborationSystem.solve`.  Beyond the string the Python
method returns, the embedding also exposes the call trace and the context at
exit, so that the claims about call counts and transcript growth are statable.
The string is wrapped in `Except`: `.error` would mean an exception escaped
`solve` uncaught, which happens exactly on the post-loop fallback
`context[-1]["content"]` with an empty context (we prove it never does). -/
def HistoryDataCollaborationSystem.solve (s : HistoryDataCollaborationSystem)
    (task : String) (svc : Service) (clock : Nat → ℚ) (timeout : ℚ) :
    List (List Message) × List Turn × Except String String :=
  match runLoop task svc clock timeout s.steps 0 [] [] with
  | (tr, ctxExit, some answer) => (tr, ctxExit, .ok answer)
  | (tr, ctxExit, none) =>
      match ctxExit.getLast? with
      | some t => (tr, ctxExit, .ok t.content)
      | none => (tr, ctxExit, .error "list index out of range")

/-! The fully successful run, characterized explicitly. -/

/-- The four transcript turns built by a run in which the completion service
answers call `n` with `r n`. -/
def successTurns (r : Nat → String) : List Turn :=
  [⟨"ai", "History Agent: " ++ r 0⟩,
   ⟨"ai", "Data Agent: " ++ r 1⟩,
   ⟨"ai", "History Agent: " ++ r 2⟩,
   ⟨"ai", "Data Agent: " ++ r 3⟩]

/-- The five message lists sent to the completion service by a run in which the
service answers call `n` with `r n`: call 1 carries no transcript, call `j + 1`
carries the `j`-turn transcript accumulated so far. -/
def successTrace (s : HistoryDataCollaborationSystem) (task : String)
    (r : Nat → String) : List (List Message) :=
  [s.history_agent.buildMessages
      ("Provide relevant historical context and information for the following task: " ++ task)
      none,
   s.data_agent.buildMessages
      ("Based on the historical context, what specific data or statistical information would be helpful to answer the original question? Historical context: "
        ++ ("History Agent: " ++ r 0))
      (some ((successTurns r).take 1)),
   s.history_agent.buildMessages
      ("Based on the data needs identified, provide relevant historical data or statistics. Data needs: "
        ++ ("Data Agent: " ++ r 1))
      (some ((successTurns r).take 2)),
   s.data_agent.buildMessages
      ("Analyze the historical data provided and describe any trends or insights relevant to the original task. Historical data: "
        ++ ("History Agent: " ++ r 2))
      (some ((successTurns r).take 3)),
   s.history_agent.buildMessages
      "Based on all the historical context, data, and analysis, provide a comprehensive answer to the original task."
      (some (successTurns r))]

/-! Stub services used as concrete instances. -/

/-- The deterministic stub responses `R1..R5`: call `n` is answered `R(n+1)`. -/
def rStub : Nat → String := fun n => "R" ++ toString (n + 1)

/-- A completion service that always succeeds, answering call `n` with
`rStub n` regardless of the messages. -/
def stubR : Service := fun n _ => .ok (rStub n)

/-- A completion service that raises on the 3rd call (index 2) and otherwise
answers like `stubR`. -/
def stubFail3 : Service := fun n _ => if n = 2 then .error "boom" else .ok (rStub n)

/-! The message list as the specification describes it, for comparison with the code. -/

/-- The message list as §4.1 of the specification describes it: one system
instruction built from the descriptor, then every transcript turn in order
(human-speaker turns as human-role messages, agent-speaker turns as agent-role
messages), then the task text as a final human-role message. -/
def specProcessMessages (a : Agent) (task : String) (turns : List Turn) :
    List Message :=
  Message.mk .system
      ("You are " ++ a.name ++ ", a " ++ a.role ++ ". Your skills include: " ++
        String.intercalate ", " a.skills ++
        ". Respond to the task based on your role and skills.")
    :: turns.map (fun t => Message.mk (if t.role = "human" then .human else .ai) t.content)
    ++ [Message.mk .human task]


theorem solve_success_eq (s : HistoryDataCollaborationSystem) (task : String)
    (svc : Service) (clock : Nat → ℚ) (timeout : ℚ) (r : Nat → String)
    (hclock : ∀ k, ¬ timeout < clock k)
    (hsvc : ∀ n msgs, svc n msgs = .ok (r n)) :
    s.solve task svc clock timeout = (successTrace s task r, successTurns r, .ok (r 4)) := by
  simp [HistoryDataCollaborationSystem.solve, runLoop,
    HistoryDataCollaborationSystem.steps, research_historical_context,
    identify_data_needs, provide_historical_data, analyze_data,
    synthesize_final_answer, Agent.process, hsvc, hclock,
    successTrace, successTurns]

/-! Helper lemmas about the step functions. -/

theorem research_ctx_append (a : Agent) (task : String) (ctx : List Turn)
    (svc : Service) (tr : List (List Message)) (c' : List Turn)
    (h : (research_historical_context a task ctx svc tr).2 = .ok (.ctx c')) :
    ∃ t, c' = ctx ++ [t] := by
  unfold research_historical_context Agent.process at h
  dsimp only at h
  split at h
  · simp only [Except.ok.injEq, StepResult.ctx.injEq] at h
    exact ⟨_, h.symm⟩
  · simp at h

theorem identify_ctx_append (a : Agent) (task : String) (ctx : List Turn)
    (svc : Service) (tr : List (List Message)) (c' : List Turn)
    (h : (identify_data_needs a task ctx svc tr).2 = .ok (.ctx c')) :
    ∃ t, c' = ctx ++ [t] := by
  unfold identify_data_needs Agent.process at h
  split at h
  · simp at h
  · dsimp only at h
    split at h
    · simp only [Except.ok.injEq, StepResult.ctx.injEq] at h
      exact ⟨_, h.symm⟩
    · simp at h

theorem provide_ctx_append (a : Agent) (task : String) (ctx : List Turn)
    (svc : Service) (tr : List (List Message)) (c' : List Turn)
    (h : (provide_historical_data a task ctx svc tr).2 = .ok (.ctx c')) :
    ∃ t, c' = ctx ++ [t] := by
  unfold provide_historical_data Agent.process at h
  split at h
  · simp at h
  · dsimp only at h
    split at h
    · simp only [Except.ok.injEq, StepResult.ctx.injEq] at h
      exact ⟨_, h.symm⟩
    · simp at h

theorem analyze_ctx_append (a : Agent) (task : String) (ctx : List Turn)
    (svc : Service) (tr : List (List Message)) (c' : List Turn)
    (h : (analyze_data a task ctx svc tr).2 = .ok (.ctx c')) :
    ∃ t, c' = ctx ++ [t] := by
  unfold analyze_data Agent.process at h
  split at h
  · simp at h
  · dsimp only at h
    split at h
    · simp only [Except.ok.injEq, StepResult.ctx.injEq] at h
      exact ⟨_, h.symm⟩
    · simp at h

theorem synthesize_not_ctx (a : Agent) (task : String) (ctx : List Turn)
    (svc : Service) (tr : List (List Message)) (c' : List Turn) :
    (synthesize_final_answer a task ctx svc tr).2 ≠ .ok (.ctx c') := by
  unfold synthesize_final_answer Agent.process
  intro h
  dsimp only at h
  split at h
  · simp at h
  · simp at h

theorem research_one_call (a : Agent) (task : String) (ctx : List Turn)
    (svc : Service) (tr : List (List Message)) :
    (research_historical_context a task ctx svc tr).1 =
      tr ++ [a.buildMessages
        ("Provide relevant historical context and information for the following task: " ++ task)
        none] := by
  unfold research_historical_context Agent.process
  dsimp only
  split <;> simp_all

theorem identify_one_call (a : Agent) (task : String) (ctx : List Turn)
    (svc : Service) (tr : List (List Message)) (hctx : ctx ≠ []) :
    ∃ m, (identify_data_needs a task ctx svc tr).1 = tr ++ [m] := by
  unfold identify_data_needs Agent.process
  split
  · next heq => simp [List.getLast?_eq_none_iff] at heq; exact absurd heq hctx
  · dsimp only
    split
    · next x tr1 r heq =>
        exact ⟨_, (((Prod.mk.injEq _ _ _ _).mp heq).1).symm⟩
    · next x tr1 e heq =>
        exact ⟨_, (((Prod.mk.injEq _ _ _ _).mp heq).1).symm⟩

theorem provide_one_call (a : Agent) (task : String) (ctx : List Turn)
    (svc : Service) (tr : List (List Message)) (hctx : ctx ≠ []) :
    ∃ m, (provide_historical_data a task ctx svc tr).1 = tr ++ [m] := by
  unfold provide_historical_data Agent.process
  split
  · next heq => simp [List.getLast?_eq_none_iff] at heq; exact absurd heq hctx
  · dsimp only
    split
    · next x tr1 r heq =>
        exact ⟨_, (((Prod.mk.injEq _ _ _ _).mp heq).1).symm⟩
    · next x tr1 e heq =>
        exact ⟨_, (((Prod.mk.injEq _ _ _ _).mp heq).1).symm⟩

theorem analyze_one_call (a : Agent) (task : String) (ctx : List Turn)
    (svc : Service) (tr : List (List Message)) (hctx : ctx ≠ []) :
    ∃ m, (analyze_data a task ctx svc tr).1 = tr ++ [m] := by
  unfold analyze_data Agent.process
  split
  · next heq => simp [List.getLast?_eq_none_iff] at heq; exact absurd heq hctx
  · dsimp only
    split
    · next x tr1 r heq =>
        exact ⟨_, (((Prod.mk.injEq _ _ _ _).mp heq).1).symm⟩
    · next x tr1 e heq =>
        exact ⟨_, (((Prod.mk.injEq _ _ _ _).mp heq).1).symm⟩

theorem synthesize_one_call (a : Agent) (task : String) (ctx : List Turn)
    (svc : Service) (tr : List (List Message)) :
    ∃ m, (synthesize_final_answer a task ctx svc tr).1 = tr ++ [m] := by
  unfold synthesize_final_answer Agent.process
  dsimp only
  split
  · next x tr1 r heq =>
      exact ⟨_, (((Prod.mk.injEq _ _ _ _).mp heq).1).symm⟩
  · next x tr1 e heq =>
      exact ⟨_, (((Prod.mk.injEq _ _ _ _).mp heq).1).symm⟩
theorem runLoop_synth_last_some (task : String) (svc : Service) (clock : Nat → ℚ)
    (timeout : ℚ) (ag : Agent) :
    ∀ (pre : List (StepFun × Agent)) (k : Nat) (ctx : List Turn) (tr : List (List Message)),
      ∃ ans,
        (runLoop task svc clock timeout (pre ++ [(synthesize_final_answer, ag)]) k ctx tr).2.2
          = some ans := by
  intro pre
  induction pre with
  | nil =>
    intro k ctx tr
    simp only [List.nil_append, runLoop]
    by_cases hc : timeout < clock k
    · exact ⟨timeoutMessage, by simp [hc]⟩
    · rw [if_neg hc]
      rcases hstep : synthesize_final_answer ag task ctx svc tr with ⟨tr', res⟩
      rcases res with e | sr
      · exact ⟨"Error during collaboration: " ++ e, by simp⟩
      · rcases sr with c | s
        · exact absurd (by rw [hstep]) (synthesize_not_ctx ag task ctx svc tr c)
        · exact ⟨s, by simp⟩
  | cons hd tl ih =>
    intro k ctx tr
    rcases hd with ⟨f, a⟩
    simp only [List.cons_append, runLoop]
    by_cases hc : timeout < clock k
    · exact ⟨timeoutMessage, by simp [hc]⟩
    · rw [if_neg hc]
      rcases hstep : f a task ctx svc tr with ⟨tr', res⟩
      rcases res with e | sr
      · exact ⟨"Error during collaboration: " ++ e, by simp⟩
      · rcases sr with c | s
        · dsimp only
          exact ih (k + 1) c tr'
        · exact ⟨s, by simp⟩

theorem runLoop_steps_some (s : HistoryDataCollaborationSystem) (task : String)
    (svc : Service) (clock : Nat → ℚ) (timeout : ℚ) (k : Nat) (ctx : List Turn)
    (tr : List (List Message)) :
    ∃ ans, (runLoop task svc clock timeout s.steps k ctx tr).2.2 = some ans := by
  have h : s.steps =
      [(research_historical_context, s.history_agent),
       (identify_data_needs, s.data_agent),
       (provide_historical_data, s.history_agent),
       (analyze_data, s.data_agent)] ++ [(synthesize_final_answer, s.history_agent)] := rfl
  rw [h]
  exact runLoop_synth_last_some task svc clock timeout s.history_agent _ k ctx tr

theorem runLoop_clock_congr (task : String) (svc : Service) (tm : ℚ) (c₁ c₂ : Nat → ℚ) :
    ∀ (pairs : List (StepFun × Agent)) (k : Nat) (ctx : List Turn) (tr : List (List Message)),
      (∀ j, k ≤ j → j < k + pairs.length → c₁ j = c₂ j) →
      runLoop task svc c₁ tm pairs k ctx tr = runLoop task svc c₂ tm pairs k ctx tr := by
  intro pairs
  induction pairs with
  | nil => intro k ctx tr h; rfl
  | cons hd tl ih =>
    intro k ctx tr h
    rcases hd with ⟨f, a⟩
    have hk : c₁ k = c₂ k := h k le_rfl (by simp only [List.length_cons]; omega)
    simp only [runLoop, hk]
    by_cases hc : tm < c₂ k
    · simp [hc]
    · rw [if_neg hc, if_neg hc]
      rcases hstep : f a task ctx svc tr with ⟨tr', res⟩
      rcases res with e | sr
      · rfl
      · rcases sr with c | s
        · dsimp only
          exact ih (k + 1) c tr' fun j hj1 hj2 => by
            refine h j (by omega) ?hj
            simp only [List.length_cons]
            omega
        · rfl

theorem filterMap_roles (l : List Turn)
    (h : ∀ t ∈ l, t.role = "human" ∨ t.role = "ai") :
    (l.filterMap fun t =>
        if t.role = "human" then some (Message.mk .human t.content)
        else if t.role = "ai" then some (Message.mk .ai t.content)
        else none)
      = l.map fun t =>
          Message.mk (if t.role = "human" then MsgRole.human else MsgRole.ai) t.content := by
  induction l with
  | nil => rfl
  | cons hd tl ih =>
    have htl : ∀ t ∈ tl, t.role = "human" ∨ t.role = "ai" :=
      fun t ht => h t (List.mem_cons_of_mem _ ht)
    rcases h hd (List.mem_cons_self _ _) with hh | ha
    · simp [List.filterMap_cons, List.map_cons, hh, ih htl]
    · have hne : hd.role ≠ "human" := by rw [ha]; decide
      simp [List.filterMap_cons, List.map_cons, ha, hne, ih htl]

theorem buildMessages_eq_spec (a : Agent) (task : String)
    (context : Option (List Turn))
    (h : ∀ t ∈ context.getD [], t.role = "human" ∨ t.role = "ai") :
    a.buildMessages task context = specProcessMessages a task (context.getD []) := by
  unfold Agent.buildMessages specProcessMessages
  rw [filterMap_roles _ h]

theorem solve_clock_congr (s : HistoryDataCollaborationSystem) (task : String)
    (svc : Service) (tm : ℚ) (c₁ c₂ : Nat → ℚ) (h : ∀ j, j ≤ 4 → c₁ j = c₂ j) :
    s.solve task svc c₁ tm = s.solve task svc c₂ tm := by
  have hlen : s.steps.length = 5 := rfl
  unfold HistoryDataCollaborationSystem.solve
  rw [runLoop_clock_congr task svc tm c₁ c₂ s.steps 0 [] []
    (fun j _ hj2 => h j (by rw [hlen] at hj2; omega))]

theorem rStub_four : rStub 4 = "R5" := by decide

/-! The claims. -/

/-- C1: for every non-empty task and positive timeout, when every
completion-service call succeeds (and no boundary check fires), `solve` returns
exactly the text produced by the fifth (synthesis) call, verbatim, and the
transcript at exit holds only the four earlier turns — the answer is not
appended. -/
theorem claim1_solve_returns_step5_text (s : HistoryDataCollaborationSystem)
    (task : String) (svc : Service) (clock : Nat → ℚ) (timeout : ℚ) (r : Nat → String)
    (htask : task ≠ "") (htimeout : 0 < timeout)
    (hclock : ∀ k, ¬ timeout < clock k)
    (hsvc : ∀ n msgs, svc n msgs = .ok (r n)) :
    (s.solve task svc clock timeout).2.2 = .ok (r 4) ∧
    (s.solve task svc clock timeout).2.1 = successTurns r := by
  rw [solve_success_eq s task svc clock timeout r hclock hsvc]
  exact ⟨rfl, rfl⟩

/-- Witness for C1: with the stub answering `R1..R5`, the result is `"R5"`. -/
theorem claim1_witness_stubR :
    (HistoryDataCollaborationSystem.mkDefault.solve "t" stubR (fun _ => 0) 300).2.2
      = .ok "R5" ∧
    (HistoryDataCollaborationSystem.mkDefault.solve "t" stubR (fun _ => 0) 300).2.1
      = successTurns rStub := by
  have h := claim1_solve_returns_step5_text HistoryDataCollaborationSystem.mkDefault
    "t" stubR (fun _ => 0) 300 rStub (by decide) (by norm_num)
    (fun k => by norm_num) (fun n msgs => rfl)
  exact ⟨by rw [h.1, rStub_four], h.2⟩

/-- C3: `Agent.process` sends the system instruction built from the
descriptor, then every supplied transcript turn in order (human→human message,
agent→agent message), then the task as a final human message, and returns the
service's output on exactly that list, verbatim. -/
theorem claim3_process_message_list (a : Agent) (task : String)
    (context : Option (List Turn)) (svc : Service) (tr : List (List Message))
    (hroles : ∀ t ∈ context.getD [], t.role = "human" ∨ t.role = "ai") :
    a.process task context svc tr =
      (tr ++ [specProcessMessages a task (context.getD [])],
       svc tr.length (specProcessMessages a task (context.getD []))) := by
  unfold Agent.process
  dsimp only
  rw [buildMessages_eq_spec a task context hroles]

/-- Witness for C3 at a concrete agent, transcript and service. -/
theorem claim3_witness :
    (Agent.mk "A" "B" ["s1", "s2"]).process "do it"
        (some [⟨"human", "hi"⟩, ⟨"ai", "yo"⟩]) stubR []
      = ([specProcessMessages (Agent.mk "A" "B" ["s1", "s2"]) "do it"
            [⟨"human", "hi"⟩, ⟨"ai", "yo"⟩]],
         stubR 0 (specProcessMessages (Agent.mk "A" "B" ["s1", "s2"]) "do it"
            [⟨"human", "hi"⟩, ⟨"ai", "yo"⟩])) := by
  have h := claim3_process_message_list (Agent.mk "A" "B" ["s1", "s2"]) "do it"
    (some [⟨"human", "hi"⟩, ⟨"ai", "yo"⟩]) stubR [] (by decide)
  simpa using h

/-- C6: `solve` is total — whatever the service, clock, task and timeout
do, it returns a plain string (`Except.ok`); no exception escapes it. -/
theorem claim6_solve_total (s : HistoryDataCollaborationSystem) (task : String)
    (svc : Service) (clock : Nat → ℚ) (timeout : ℚ) :
    ∃ ans, (s.solve task svc clock timeout).2.2 = .ok ans := by
  obtain ⟨ans, h⟩ := runLoop_steps_some s task svc clock timeout 0 [] []
  unfold HistoryDataCollaborationSystem.solve
  rcases hrun : runLoop task svc clock timeout s.steps 0 [] [] with ⟨tr, ctxE, o⟩
  rw [hrun] at h
  dsimp at h
  subst h
  exact ⟨ans, rfl⟩

/-- C7: with the deterministic stub `R1..R5`, a `solve` run on the default
orchestrator yields `"R5"` and exactly the four expected turns, and a second
run with the same task is literally the same computation — nothing persists
across runs (the transcript is created afresh inside `solve` and the
orchestrator holds only the two immutable agents). -/
theorem claim7_deterministic_stub_runs (task : String) :
    ((HistoryDataCollaborationSystem.mkDefault.solve task stubR (fun _ => 0) 300).2.2
      = .ok "R5") ∧
    ((HistoryDataCollaborationSystem.mkDefault.solve task stubR (fun _ => 0) 300).2.1
      = [⟨"ai", "History Agent: R1"⟩, ⟨"ai", "Data Agent: R2"⟩,
         ⟨"ai", "History Agent: R3"⟩, ⟨"ai", "Data Agent: R4"⟩]) ∧
    (HistoryDataCollaborationSystem.mkDefault.solve task stubR (fun _ => 0) 300
      = HistoryDataCollaborationSystem.mkDefault.solve task stubR (fun _ => 0) 300) := by
  have h := solve_success_eq HistoryDataCollaborationSystem.mkDefault task stubR
    (fun _ => 0) 300 rStub (fun k => by norm_num) (fun n m => rfl)
  refine ⟨by rw [h]; rw [rStub_four], by rw [h]; rfl, rfl⟩

/-- C9: the timeout comparison is strict — if the clock reports elapsed
time exactly equal to the budget at every boundary, every step (and its
completion-service call) still executes; in particular a zero timeout with
zero measured elapsed time runs the whole pipeline. -/
theorem claim9_strict_timeout_comparison (s : HistoryDataCollaborationSystem)
    (task : String) (svc : Service) (timeout : ℚ) (r : Nat → String)
    (hsvc : ∀ n msgs, svc n msgs = .ok (r n)) :
    (s.solve task svc (fun _ => timeout) timeout).2.2 = .ok (r 4) ∧
    (s.solve task svc (fun _ => timeout) timeout).1.length = 5 := by
  rw [solve_success_eq s task svc (fun _ => timeout) timeout r
    (fun k => lt_irrefl timeout) hsvc]
  exact ⟨rfl, rfl⟩

/-- Witness for C9: timeout 0 and elapsed 0 at every check — all five calls
happen and the result is `"R5"`. -/
theorem claim9_witness_zero_timeout :
    (HistoryDataCollaborationSystem.mkDefault.solve "t" stubR (fun _ => 0) 0).2.2
      = .ok "R5" ∧
    (HistoryDataCollaborationSystem.mkDefault.solve "t" stubR (fun _ => 0) 0).1.length
      = 5 := by
  have h := claim9_strict_timeout_comparison HistoryDataCollaborationSystem.mkDefault
    "t" stubR 0 rStub (fun n m => rfl)
  exact ⟨by rw [h.1, rStub_four], h.2⟩

/-- C10: with the fixed five-step pipeline the loop always returns from
within — the post-loop fallback (`context[-1]["content"]`) is unreachable,
because the terminal step always produces a string (answer or error). -/
theorem claim10_fallback_unreachable (s : HistoryDataCollaborationSystem)
    (task : String) (svc : Service) (clock : Nat → ℚ) (timeout : ℚ) :
    ∃ ans, (runLoop task svc clock timeout s.steps 0 [] []).2.2 = some ans :=
  runLoop_steps_some s task svc clock timeout 0 [] []

/-- C2: the transcript is append-only — every pipeline step that hands back
a context has appended exactly one turn to the context it was given (existing
turns are never mutated, reordered or removed), the terminal step never hands
back a context at all, and after a fully successful run the transcript holds
exactly 4 turns. -/
theorem claim2_transcript_append_only :
    (∀ (s : HistoryDataCollaborationSystem) fa, fa ∈ s.steps →
      ∀ (task : String) (ctx : List Turn) (svc : Service) (tr : List (List Message))
        (c' : List Turn),
        (fa.1 fa.2 task ctx svc tr).2 = .ok (.ctx c') → ∃ t, c' = ctx ++ [t]) ∧
    (∀ (a : Agent) (task : String) (ctx : List Turn) (svc : Service)
        (tr : List (List Message)) (c' : List Turn),
      (synthesize_final_answer a task ctx svc tr).2 ≠ .ok (.ctx c')) ∧
    (∀ (s : HistoryDataCollaborationSystem) (task : String) (svc : Service)
        (clock : Nat → ℚ) (timeout : ℚ) (r : Nat → String),
      (∀ k, ¬ timeout < clock k) → (∀ n msgs, svc n msgs = .ok (r n)) →
      (s.solve task svc clock timeout).2.1 = successTurns r ∧
      ((s.solve task svc clock timeout).2.1).length = 4) := by
  refine ⟨?_, synthesize_not_ctx, ?_⟩
  · intro s fa hmem task ctx svc tr c' h
    simp only [HistoryDataCollaborationSystem.steps, List.mem_cons,
      List.not_mem_nil, or_false] at hmem
    rcases hmem with h1 | h1 | h1 | h1 | h1 <;> subst h1
    · exact research_ctx_append _ task ctx svc tr c' h
    · exact identify_ctx_append _ task ctx svc tr c' h
    · exact provide_ctx_append _ task ctx svc tr c' h
    · exact analyze_ctx_append _ task ctx svc tr c' h
    · exact absurd h (synthesize_not_ctx _ task ctx svc tr c')
  · intro s task svc clock timeout r hclock hsvc
    rw [solve_success_eq s task svc clock timeout r hclock hsvc]
    exact ⟨rfl, rfl⟩

/-- Witness for C2: step 1 appends exactly one turn to the empty transcript;
the terminal step hands back no context; a full stub run ends with 4 turns. -/
theorem claim2_witness :
    (∃ t, [(⟨"ai", "History Agent: R1"⟩ : Turn)] = [] ++ [t]) ∧
    ((synthesize_final_answer HistoryDataCollaborationSystem.mkDefault.history_agent "t"
        [⟨"ai", "History Agent: R1"⟩] stubR []).2 ≠ .ok (.ctx [])) ∧
    ((HistoryDataCollaborationSystem.mkDefault.solve "t" stubR (fun _ => 0) 300).2.1).length
      = 4 := by
  refine ⟨?_, ?_, ?_⟩
  · exact claim2_transcript_append_only.1 HistoryDataCollaborationSystem.mkDefault
      (research_historical_context, HistoryDataCollaborationSystem.mkDefault.history_agent)
      (by simp [HistoryDataCollaborationSystem.steps]) "t" [] stubR []
      [⟨"ai", "History Agent: R1"⟩] rfl
  · exact claim2_transcript_append_only.2.1
      HistoryDataCollaborationSystem.mkDefault.history_agent "t"
      [⟨"ai", "History Agent: R1"⟩] stubR [] []
  · exact (claim2_transcript_append_only.2.2 HistoryDataCollaborationSystem.mkDefault
      "t" stubR (fun _ => 0) 300 rStub (fun k => by norm_num) (fun n m => rfl)).2

/-- C8: each pipeline step issues exactly one completion-service call (on
any context a step can reach inside a run), a full successful run issues five,
and the recorded message lists show step 1 passing no transcript and steps 2–5
passing the transcript accumulated so far (`successTrace`). -/
theorem claim8_one_call_per_step :
    (∀ (s : HistoryDataCollaborationSystem) fa, fa ∈ s.steps →
      ∀ (task : String) (ctx : List Turn) (svc : Service) (tr : List (List Message)),
        ctx ≠ [] → ∃ m, (fa.1 fa.2 task ctx svc tr).1 = tr ++ [m]) ∧
    (∀ (s : HistoryDataCollaborationSystem) (task : String) (svc : Service)
        (clock : Nat → ℚ) (timeout : ℚ) (r : Nat → String),
      (∀ k, ¬ timeout < clock k) → (∀ n msgs, svc n msgs = .ok (r n)) →
      (s.solve task svc clock timeout).1 = successTrace s task r ∧
      (s.solve task svc clock timeout).1.length = 5 ∧
      (s.solve task svc clock timeout).1.head? =
        some (s.history_agent.buildMessages
          ("Provide relevant historical context and information for the following task: "
            ++ task)
          none)) := by
  constructor
  · intro s fa hmem task ctx svc tr hctx
    simp only [HistoryDataCollaborationSystem.steps, List.mem_cons,
      List.not_mem_nil, or_false] at hmem
    rcases hmem with h1 | h1 | h1 | h1 | h1 <;> subst h1
    · exact ⟨_, research_one_call _ task ctx svc tr⟩
    · exact identify_one_call _ task ctx svc tr hctx
    · exact provide_one_call _ task ctx svc tr hctx
    · exact analyze_one_call _ task ctx svc tr hctx
    · exact synthesize_one_call _ task ctx svc tr
  · intro s task svc clock timeout r hclock hsvc
    rw [solve_success_eq s task svc clock timeout r hclock hsvc]
    exact ⟨rfl, rfl, rfl⟩

/-- Witness for C8: step 2 on a one-turn transcript makes exactly one call,
and the full stub run records exactly five calls. -/
theorem claim8_witness :
    (∃ m, (identify_data_needs HistoryDataCollaborationSystem.mkDefault.data_agent "t"
        [⟨"ai", "x"⟩] stubR []).1 = [] ++ [m]) ∧
    (HistoryDataCollaborationSystem.mkDefault.solve "t" stubR (fun _ => 0) 300).1.length
      = 5 := by
  constructor
  · exact claim8_one_call_per_step.1 HistoryDataCollaborationSystem.mkDefault
      (identify_data_needs, HistoryDataCollaborationSystem.mkDefault.data_agent)
      (by simp [HistoryDataCollaborationSystem.steps]) "t" [⟨"ai", "x"⟩] stubR []
      (by decide)
  · exact (claim8_one_call_per_step.2 HistoryDataCollaborationSystem.mkDefault "t" stubR
      (fun _ => 0) 300 rStub (fun k => by norm_num) (fun n m => rfl)).2.1

/-- C4: if the completion service raises on the `i`-th call (calls before
it succeeding and no boundary check firing), `solve` returns exactly
`"Error during collaboration: "` followed by the exception's message, and the
call trace holds exactly `i` entries — the `i - 1` successful calls plus the
failed one, with no call after the failure and no transcript content in the
result. -/
theorem claim4_failure_short_circuit (s : HistoryDataCollaborationSystem)
    (task : String) (svc : Service) (clock : Nat → ℚ) (timeout : ℚ)
    (r : Nat → String) (e : String) (i : Nat)
    (hi1 : 1 ≤ i) (hi5 : i ≤ 5)
    (hclock : ∀ k, ¬ timeout < clock k)
    (hok : ∀ n msgs, n + 1 < i → svc n msgs = .ok (r n))
    (herr : ∀ msgs, svc (i - 1) msgs = .error e) :
    (s.solve task svc clock timeout).2.2 = .ok ("Error during collaboration: " ++ e) ∧
    (s.solve task svc clock timeout).1.length = i := by
  interval_cases i
  · have he : ∀ m, svc 0 m = Except.error e := by simpa using herr
    simp [HistoryDataCollaborationSystem.solve, runLoop, HistoryDataCollaborationSystem.steps,
      research_historical_context, identify_data_needs, provide_historical_data, analyze_data,
      synthesize_final_answer, Agent.process, hclock, he]
  · have h0 : ∀ m, svc 0 m = Except.ok (r 0) := fun m => hok 0 m (by norm_num)
    have he : ∀ m, svc 1 m = Except.error e := by simpa using herr
    simp [HistoryDataCollaborationSystem.solve, runLoop, HistoryDataCollaborationSystem.steps,
      research_historical_context, identify_data_needs, provide_historical_data, analyze_data,
      synthesize_final_answer, Agent.process, hclock, h0, he]
  · have h0 : ∀ m, svc 0 m = Except.ok (r 0) := fun m => hok 0 m (by norm_num)
    have h1 : ∀ m, svc 1 m = Except.ok (r 1) := fun m => hok 1 m (by norm_num)
    have he : ∀ m, svc 2 m = Except.error e := by simpa using herr
    simp [HistoryDataCollaborationSystem.solve, runLoop, HistoryDataCollaborationSystem.steps,
      research_historical_context, identify_data_needs, provide_historical_data, analyze_data,
      synthesize_final_answer, Agent.process, hclock, h0, h1, he]
  · have h0 : ∀ m, svc 0 m = Except.ok (r 0) := fun m => hok 0 m (by norm_num)
    have h1 : ∀ m, svc 1 m = Except.ok (r 1) := fun m => hok 1 m (by norm_num)
    have h2 : ∀ m, svc 2 m = Except.ok (r 2) := fun m => hok 2 m (by norm_num)
    have he : ∀ m, svc 3 m = Except.error e := by simpa using herr
    simp [HistoryDataCollaborationSystem.solve, runLoop, HistoryDataCollaborationSystem.steps,
      research_historical_context, identify_data_needs, provide_historical_data, analyze_data,
      synthesize_final_answer, Agent.process, hclock, h0, h1, h2, he]
  · have h0 : ∀ m, svc 0 m = Except.ok (r 0) := fun m => hok 0 m (by norm_num)
    have h1 : ∀ m, svc 1 m = Except.ok (r 1) := fun m => hok 1 m (by norm_num)
    have h2 : ∀ m, svc 2 m = Except.ok (r 2) := fun m => hok 2 m (by norm_num)
    have h3 : ∀ m, svc 3 m = Except.ok (r 3) := fun m => hok 3 m (by norm_num)
    have he : ∀ m, svc 4 m = Except.error e := by simpa using herr
    simp [HistoryDataCollaborationSystem.solve, runLoop, HistoryDataCollaborationSystem.steps,
      research_historical_context, identify_data_needs, provide_historical_data, analyze_data,
      synthesize_final_answer, Agent.process, hclock, h0, h1, h2, h3, he]

/-- Witness for C4: the stub failing on the 3rd call — `solve` reports the
error and exactly 3 calls were issued (2 successes and the failed one). -/
theorem claim4_witness_third_call :
    (HistoryDataCollaborationSystem.mkDefault.solve "t" stubFail3 (fun _ => 0) 300).2.2
      = .ok ("Error during collaboration: " ++ "boom") ∧
    (HistoryDataCollaborationSystem.mkDefault.solve "t" stubFail3 (fun _ => 0) 300).1.length
      = 3 :=
  claim4_failure_short_circuit HistoryDataCollaborationSystem.mkDefault "t" stubFail3
    (fun _ => 0) 300 rStub "boom" 3 (by norm_num) (by norm_num) (fun k => by norm_num)
    (fun n m hn => by
      rcases n with _ | n
      · rfl
      · rcases n with _ | n
        · rfl
        · omega)
    (fun m => rfl)

/-- C5: if the clock reports elapsed time strictly exceeding the timeout at
the boundary before step `b + 1` (earlier checks passing and earlier calls
succeeding), `solve` returns exactly the fixed timeout string and the call
trace holds exactly `b` entries — no call for step `b + 1` or later; moreover
the run consults the clock only at the five step boundaries (two clocks that
agree there give identical runs). -/
theorem claim5_timeout_short_circuit (s : HistoryDataCollaborationSystem)
    (task : String) (svc : Service) (clock : Nat → ℚ) (timeout : ℚ)
    (r : Nat → String) (b : Nat) (hb : b ≤ 4)
    (hpass : ∀ j, j < b → ¬ timeout < clock j)
    (hfire : timeout < clock b)
    (hok : ∀ n msgs, n < b → svc n msgs = .ok (r n)) :
    ((s.solve task svc clock timeout).2.2 = .ok timeoutMessage ∧
     (s.solve task svc clock timeout).1.length = b) ∧
    (∀ (s' : HistoryDataCollaborationSystem) (task' : String) (svc' : Service)
        (tm' : ℚ) (c₁ c₂ : Nat → ℚ),
      (∀ j, j ≤ 4 → c₁ j = c₂ j) → s'.solve task' svc' c₁ tm' = s'.solve task' svc' c₂ tm') := by
  refine ⟨?_, fun s' task' svc' tm' c₁ c₂ hcc => solve_clock_congr s' task' svc' tm' c₁ c₂ hcc⟩
  interval_cases b
  · simp [HistoryDataCollaborationSystem.solve, runLoop, HistoryDataCollaborationSystem.steps,
      research_historical_context, identify_data_needs, provide_historical_data, analyze_data,
      synthesize_final_answer, Agent.process, hfire]
  · have hp0 := hpass 0 (by norm_num)
    have h0 : ∀ m, svc 0 m = Except.ok (r 0) := fun m => hok 0 m (by norm_num)
    simp [HistoryDataCollaborationSystem.solve, runLoop, HistoryDataCollaborationSystem.steps,
      research_historical_context, identify_data_needs, provide_historical_data, analyze_data,
      synthesize_final_answer, Agent.process, hp0, h0, hfire]
  · have hp0 := hpass 0 (by norm_num)
    have hp1 := hpass 1 (by norm_num)
    have h0 : ∀ m, svc 0 m = Except.ok (r 0) := fun m => hok 0 m (by norm_num)
    have h1 : ∀ m, svc 1 m = Except.ok (r 1) := fun m => hok 1 m (by norm_num)
    simp [HistoryDataCollaborationSystem.solve, runLoop, HistoryDataCollaborationSystem.steps,
      research_historical_context, identify_data_needs, provide_historical_data, analyze_data,
      synthesize_final_answer, Agent.process, hp0, hp1, h0, h1, hfire]
  · have hp0 := hpass 0 (by norm_num)
    have hp1 := hpass 1 (by norm_num)
    have hp2 := hpass 2 (by norm_num)
    have h0 : ∀ m, svc 0 m = Except.ok (r 0) := fun m => hok 0 m (by norm_num)
    have h1 : ∀ m, svc 1 m = Except.ok (r 1) := fun m => hok 1 m (by norm_num)
    have h2 : ∀ m, svc 2 m = Except.ok (r 2) := fun m => hok 2 m (by norm_num)
    simp [HistoryDataCollaborationSystem.solve, runLoop, HistoryDataCollaborationSystem.steps,
      research_historical_context, identify_data_needs, provide_historical_data, analyze_data,
      synthesize_final_answer, Agent.process, hp0, hp1, hp2, h0, h1, h2, hfire]
  · have hp0 := hpass 0 (by norm_num)
    have hp1 := hpass 1 (by norm_num)
    have hp2 := hpass 2 (by norm_num)
    have hp3 := hpass 3 (by norm_num)
    have h0 : ∀ m, svc 0 m = Except.ok (r 0) := fun m => hok 0 m (by norm_num)
    have h1 : ∀ m, svc 1 m = Except.ok (r 1) := fun m => hok 1 m (by norm_num)
    have h2 : ∀ m, svc 2 m = Except.ok (r 2) := fun m => hok 2 m (by norm_num)
    have h3 : ∀ m, svc 3 m = Except.ok (r 3) := fun m => hok 3 m (by norm_num)
    simp [HistoryDataCollaborationSystem.solve, runLoop, HistoryDataCollaborationSystem.steps,
      research_historical_context, identify_data_needs, provide_historical_data, analyze_data,
      synthesize_final_answer, Agent.process, hp0, hp1, hp2, hp3, h0, h1, h2, h3, hfire]

/-- Witness for C5: the clock jumps past the budget before step 3 — `solve`
returns the timeout string after exactly 2 calls; and a clock change beyond
the five boundaries does not affect the run. -/
theorem claim5_witness :
    ((HistoryDataCollaborationSystem.mkDefault.solve "t" stubR
        (fun k => if k ≤ 1 then 0 else 10) 5).2.2 = .ok timeoutMessage ∧
     (HistoryDataCollaborationSystem.mkDefault.solve "t" stubR
        (fun k => if k ≤ 1 then 0 else 10) 5).1.length = 2) ∧
    (HistoryDataCollaborationSystem.mkDefault.solve "t" stubR (fun _ => 0) 300
      = HistoryDataCollaborationSystem.mkDefault.solve "t" stubR
          (fun j => if j ≤ 4 then 0 else 99) 300) := by
  have h := claim5_timeout_short_circuit HistoryDataCollaborationSystem.mkDefault "t" stubR
    (fun k => if k ≤ 1 then 0 else 10) 5 rStub 2 (by norm_num)
    (fun j hj => by interval_cases j <;> norm_num)
    (by norm_num)
    (fun n m hn => rfl)
  exact ⟨h.1, h.2 HistoryDataCollaborationSystem.mkDefault "t" stubR 300 (fun _ => 0)
    (fun j => if j ≤ 4 then 0 else 99) (fun j hj => by simp [hj])⟩
